import Mathlib

/-!
Verification of the `mattress` package (a Go secure-secret container built on
the `memguard` protected-memory library).

Shallow embedding of `src/mattress.go` (the variant with the `sync.Mutex`
field, lines 134-221 of the file, which the claims reference):

* Byte slices are `List Nat`.
* The gob serializer is an external collaborator ("serialize value of type T
  to bytes and back"); it is modelled as an abstract codec record
  `GobCodec T`: `encode` may fail (gob `Encoder.Encode` returns an error),
  `encodeResidue` gives the bytes a *failed* encode leaves behind in the
  `bytes.Buffer` (gob flushes type-descriptor messages to the writer before
  value encoding, so a failing `Encode` can leave non-empty output — e.g.
  encoding a struct with a nil pointer field), `decode` may fail (gob
  `Decoder.Decode` returns an error), and `zeroVal` is the Go zero value of
  `T`, which is what `var data T` holds when `Decode(&data)` fails.
* `memguard.LockedBuffer` is a record of its byte contents and a liveness
  flag.  `Destroy` wipes and releases (and, as memguard documents, is a
  no-op on an already-destroyed buffer); `Bytes` on a destroyed buffer
  returns the empty (nil) slice.
* `memguard.NewEnclave(src)` copies `src` into an enclave and, per its
  documented contract, wipes `src` afterwards.  `Enclave.Open` can fail
  (protected-memory allocation failure); that external nondeterminism is an
  explicit `openErr` parameter threaded into `NewSecret`.
* `NewSecret` is translated in state-passing style: besides the Go result
  `(*Secret[T], error)` it returns the final contents of the intermediate
  plaintext buffer `buf`/`bytes` (to reason about wiping) and flags
  recording whether an enclave / locked buffer was ever created.
* `Expose` is translated as `Secret T → T × Secret T`: the value returned
  plus the receiver state after the call (the Go method body performs no
  write to `s.buffer`, so the receiver comes back unchanged — the reviewer
  can check each read/write of the body against the translation).
* The `sync.Mutex` has no sequential-state content; which primitive
  operations each method performs, and in which order (mutex lock/unlock,
  buffer read, buffer destroy), is transcribed separately as `MemOp` traces
  `exposeOps`, `zeroOps`, `stringOps`, read off the three method bodies.
-/

/-- Abstract interface of the gob serializer collaborator for a payload type
`T`.  `encode` is `gob.Encoder.Encode` (may fail); `encodeResidue v` is what a
failed `encode v` leaves behind in the output `bytes.Buffer`; `decode` is
`gob.Decoder.Decode` (`none` = decode error); `zeroVal` is Go's zero value of
`T`, the content of `var data T` when `Decode` fails. -/
structure GobCodec (T : Type) where
  encode : T → Except String (List Nat)
  encodeResidue : T → List Nat
  decode : List Nat → Option T
  zeroVal : T

/-- Overwrite every byte of a slice with zero, in place: the model of
`memguard.WipeBytes` (length is preserved, contents zeroed). -/
def wipeBytes (b : List Nat) : List Nat :=
  b.map (fun _ => 0)

/-- Model of `memguard.LockedBuffer`: the byte contents of the protected
region and whether the buffer is still alive (not yet destroyed). -/
structure LockedBuffer where
  data : List Nat
  alive : Bool
deriving DecidableEq, Repr

/-- Model of `LockedBuffer.Bytes()`: the raw byte slice of the region.  After
`Destroy`, memguard's buffer data is nil, so reading it yields the empty
slice. -/
def LockedBuffer.Bytes (b : LockedBuffer) : List Nat :=
  if b.alive then b.data else []

/-- Model of `LockedBuffer.Destroy()`: wipes the region and releases it.  Memguard's
`Destroy` checks the buffer's alive flag and is a documented no-op on an
already-destroyed buffer. -/
def LockedBuffer.Destroy (b : LockedBuffer) : LockedBuffer :=
  if b.alive then ⟨[], false⟩ else b

/-- An enclave, by its logical byte content: `memguard.NewEnclave` seals the
bytes and `Enclave.Open` reproduces them in a fresh locked buffer. -/
def Enclave : Type := List Nat

/-- Model of `memguard.NewEnclave(src)`: returns the enclave together with the state
of `src` after the call.  Per memguard's documented contract the source
slice is wiped after its data is copied into the enclave. -/
def newEnclave (src : List Nat) : Enclave × List Nat :=
  (src, wipeBytes src)

/-- Model of `Enclave.Open()`: opens the enclave into a live locked buffer holding its
bytes.  Protected-memory allocation can fail; that external outcome is the
`openErr` argument (`none` = success, `some msg` = the error `Open`
returns). -/
def Enclave.Open (e : Enclave) (openErr : Option String) :
    Except String LockedBuffer :=
  match openErr with
  | some msg => Except.error msg
  | none => Except.ok ⟨e, true⟩

/-- The `Secret[T]` struct: it owns one `memguard.LockedBuffer`.  The
`sync.Mutex` field carries no sequential state; the lock/unlock behaviour of
each method is transcribed in the `MemOp` traces below. -/
structure Secret (T : Type) where
  buffer : LockedBuffer
deriving DecidableEq

/-- Errors a call to `NewSecret` can return: the gob encoding error
(returned unchanged by the first early return) or the `enclave.Open` error
(returned unchanged by the second early return). -/
inductive GoError where
  | gobEncode (msg : String)
  | enclaveOpen (msg : String)
deriving DecidableEq, Repr

/-- Everything observable about one call to `NewSecret`: the Go return value
`(*Secret[T], error)` as an `Except`, the final contents of the intermediate
plaintext buffer (`buf` / `bytes` — one backing array), and whether an
enclave resp. a locked buffer was created during the call. -/
structure NewSecretOut (T : Type) where
  result : Except GoError (Secret T)
  plainBuf : List Nat
  enclaveAllocated : Bool
  bufferOpened : Bool

/-- Model of `NewSecret[T](data)`: gob-encode `data` into `buf` (on error, return it
at once — the residue a failed encode left in `buf` stays there, unwiped);
seal the bytes in an enclave (memguard wipes the source slice); open the
enclave (on error, return the `Open` error — no further wipe runs on this
path); on success call `memguard.WipeBytes(bytes)` and return the secret.
The runtime finalizer registered on the secret (which calls `zero`) is GC
behaviour, not part of the call's sequential state. -/
def NewSecret {T : Type} (c : GobCodec T) (openErr : Option String)
    (data : T) : NewSecretOut T :=
  match c.encode data with
  | Except.error e => ⟨Except.error (GoError.gobEncode e), c.encodeResidue data, false, false⟩
  | Except.ok bs =>
    let p := newEnclave bs
    match Enclave.Open p.1 openErr with
    | Except.error msg => ⟨Except.error (GoError.enclaveOpen msg), p.2, true, false⟩
    | Except.ok buffer => ⟨Except.ok ⟨buffer⟩, wipeBytes p.2, true, true⟩

/-- Model of the `zero` method: destroys the locked buffer.  The method body is exactly
`s.buffer.Destroy()` — it performs no mutex operation (see `zeroOps`). -/
def Secret.zero {T : Type} (s : Secret T) : Secret T :=
  ⟨s.buffer.Destroy⟩

/-- Model of the `Expose` method: reads the buffer's bytes and gob-decodes them into
`var data T`.  The decode error is discarded (`Decode`'s return value is not
inspected), so on a decode failure the untouched zero value of `T` is
returned.  The pair's second component is the receiver's state after the
call: the body writes nothing to `s.buffer`, so it is `s` itself. -/
def Expose {T : Type} (c : GobCodec T) (s : Secret T) : T × Secret T :=
  match c.decode s.buffer.Bytes with
  | some v => (v, s)
  | none => (c.zeroVal, s)

/-- Model of the `String` method: returns the fixed redaction token, reading nothing
from the receiver. -/
def Secret.String {T : Type} (_s : Secret T) : String :=
  "[SECRET]"

/-- The primitive operations on the cell's shared state (its mutex and its
locked buffer) that a method body can perform. -/
inductive MemOp where
  | lockMutex
  | unlockMutex
  | readBuffer
  | destroyBuffer
deriving DecidableEq, Repr

/-- Operations of the `Expose` body, in order: `s.mutex.Lock()`, the read
`s.buffer.Bytes()`, then the deferred `s.mutex.Unlock()` on return. -/
def exposeOps : List MemOp :=
  [MemOp.lockMutex, MemOp.readBuffer, MemOp.unlockMutex]

/-- Operations of the `zero` body, in order: only `s.buffer.Destroy()`.
The body contains no `s.mutex.Lock()` / `Unlock()` call. -/
def zeroOps : List MemOp :=
  [MemOp.destroyBuffer]

/-- Operations of the `String` body: none — it touches neither the mutex nor
the buffer. -/
def stringOps : List MemOp :=
  []

/-- A concrete gob codec for `Nat` payloads, used to instantiate the general
theorems at concrete inputs: encoding always succeeds and is the singleton
slice, decoding inverts it and fails on anything else (in particular on the
empty slice, as gob's decoder fails with EOF on empty input). -/
def natCodec : GobCodec Nat where
  encode n := Except.ok [n]
  encodeResidue _ := []
  decode bs :=
    match bs with
    | [n] => some n
    | _ => none
  zeroVal := 0

/-- A gob codec for `Nat` payloads whose encoding always fails — as gob does
on unsupported values — leaving the flushed type-descriptor byte `65` behind
in the output buffer. -/
def failCodec : GobCodec Nat where
  encode _ := Except.error "gob: cannot encode value"
  encodeResidue _ := [65]
  decode _ := none
  zeroVal := 0

/-! ## Theorems for the claims -/

/-- Claim C1: for every value `v` whose gob-encoding succeeds (with the
serializer's round-trip property, `decode` inverting the successful
`encode`), constructing a secret from `v` and then exposing it returns `v`:
`Expose (NewSecret v) = v`. -/
theorem expose_roundtrip {T : Type} (c : GobCodec T) (v : T) (bs : List Nat)
    (openErr : Option String) (s : Secret T)
    (henc : c.encode v = Except.ok bs)
    (hdec : c.decode bs = some v)
    (hres : (NewSecret c openErr v).result = Except.ok s) :
    (Expose c s).1 = v := by
  unfold NewSecret at hres
  rw [henc] at hres
  cases openErr with
  | some msg =>
    simp [newEnclave, Enclave.Open] at hres
  | none =>
    simp [newEnclave, Enclave.Open] at hres
    subst hres
    simp [Expose, LockedBuffer.Bytes, hdec]

/-- Witness for C1: the round trip evaluated at the concrete codec
`natCodec` and the value `5`. -/
theorem expose_roundtrip_witness :
    natCodec.encode 5 = Except.ok [5] ∧ natCodec.decode [5] = some 5 ∧
    (NewSecret natCodec none 5).result = Except.ok ⟨⟨[5], true⟩⟩ ∧
    (Expose natCodec ⟨⟨[5], true⟩⟩).1 = 5 :=
  ⟨rfl, rfl, rfl, expose_roundtrip natCodec 5 [5] none ⟨⟨[5], true⟩⟩ rfl rfl rfl⟩

/-- Claim C2 (the code violates it): on a destroyed cell, `Expose` does not
fail loudly — its Go return type is plain `T` and the decode error is
ignored — so it silently returns the zero value of `T` interpreted as a
value.  Here: the secret built from `5` is destroyed, and `Expose` returns
`0`, the Go zero value of the payload type, with no error or abort. -/
theorem expose_after_zero_silently_returns_zero :
    (NewSecret natCodec none 5).result = Except.ok ⟨⟨[5], true⟩⟩ ∧
    (Expose natCodec (Secret.zero ⟨⟨[5], true⟩⟩)).1 = 0 :=
  ⟨rfl, rfl⟩

/-- Counterexample for C3: when gob encoding fails, `NewSecret` returns at
once and the residue the failed encode left in the intermediate buffer
(here the byte `65`) is never wiped, so the buffer is not all-zero at
return. -/
theorem newSecret_encode_failure_residue_unwiped :
    ((NewSecret failCodec none 5).plainBuf.all (fun x => x == 0)) = false ∧
    (NewSecret failCodec none 5).plainBuf = [65] :=
  ⟨rfl, rfl⟩

/-- Claim C3 as amended: whenever gob encoding succeeds, the intermediate
plaintext buffer is all-zero when `NewSecret` returns, both on the success
path (`memguard.NewEnclave` wipes it and `memguard.WipeBytes` wipes it
again) and on the protected-region allocation-failure path (it was already
wiped by `memguard.NewEnclave`); on the serialization-failure path no wipe
runs. -/
theorem newSecret_wipes_plainBuf_on_encode_success {T : Type}
    (c : GobCodec T) (openErr : Option String) (v : T) (bs : List Nat)
    (henc : c.encode v = Except.ok bs) :
    ((NewSecret c openErr v).plainBuf.all (fun x => x == 0)) = true := by
  unfold NewSecret
  rw [henc]
  cases openErr with
  | some msg => simp [newEnclave, Enclave.Open, wipeBytes, List.all_eq_true]
  | none => simp [newEnclave, Enclave.Open, wipeBytes, List.all_eq_true]

/-- Witness for the amended C3: at `natCodec` and value `5` (where encoding
succeeds), the intermediate buffer is all-zero at return. -/
theorem newSecret_wipes_plainBuf_witness :
    natCodec.encode 5 = Except.ok [5] ∧
    ((NewSecret natCodec none 5).plainBuf.all (fun x => x == 0)) = true :=
  ⟨rfl, newSecret_wipes_plainBuf_on_encode_success natCodec none 5 [5] rfl⟩

/-- Claim C4: when gob encoding fails, `NewSecret` returns exactly the
encoding error, the returned cell is absent (`Except.error`, the Go `nil`),
and neither an enclave nor a locked buffer was created during the call. -/
theorem newSecret_encode_failure_allocates_nothing {T : Type}
    (c : GobCodec T) (openErr : Option String) (v : T) (e : String)
    (henc : c.encode v = Except.error e) :
    (NewSecret c openErr v).result = Except.error (GoError.gobEncode e) ∧
    (NewSecret c openErr v).enclaveAllocated = false ∧
    (NewSecret c openErr v).bufferOpened = false := by
  unfold NewSecret
  rw [henc]
  exact ⟨rfl, rfl, rfl⟩

/-- Witness for C4: `failCodec`'s encoding fails on `5`, and `NewSecret`
returns that error having allocated nothing. -/
theorem newSecret_encode_failure_witness :
    failCodec.encode 5 = Except.error "gob: cannot encode value" ∧
    ((NewSecret failCodec none 5).result
        = Except.error (GoError.gobEncode "gob: cannot encode value") ∧
      (NewSecret failCodec none 5).enclaveAllocated = false ∧
      (NewSecret failCodec none 5).bufferOpened = false) :=
  ⟨rfl, newSecret_encode_failure_allocates_nothing failCodec none 5
    "gob: cannot encode value" rfl⟩

/-- Claim C5: every successfully constructed cell renders as the fixed
redaction token `"[SECRET]"`, whatever the contained value. -/
theorem string_of_constructed_is_redaction {T : Type} (c : GobCodec T)
    (openErr : Option String) (v : T) (s : Secret T)
    (hres : (NewSecret c openErr v).result = Except.ok s) :
    Secret.String s = "[SECRET]" :=
  rfl

/-- Witness for C5: the cell constructed from `7` renders as `"[SECRET]"`. -/
theorem string_of_constructed_witness :
    (NewSecret natCodec none 7).result = Except.ok ⟨⟨[7], true⟩⟩ ∧
    Secret.String (⟨⟨[7], true⟩⟩ : Secret Nat) = "[SECRET]" :=
  ⟨rfl, string_of_constructed_is_redaction natCodec none 7 ⟨⟨[7], true⟩⟩ rfl⟩

/-- Counterexample for C6: the `zero` (destroy) method body performs no
mutex acquisition at all — `MemOp.lockMutex` does not occur in its
operation trace — refuting the claim that every destroy call acquires the
cell's lock. -/
theorem zero_does_not_lock_mutex : MemOp.lockMutex ∉ zeroOps := by
  decide

/-- Claim C6 as amended: `Expose` acquires the mutex first and releases it
last (the deferred unlock runs at return, so the lock is held for the full
call), but `zero` never touches the mutex — it destroys the buffer without
acquiring the lock, so the lock does not prevent a destroy from running
concurrently with an in-flight `Expose`. -/
theorem expose_locks_but_zero_does_not :
    exposeOps.head? = some MemOp.lockMutex ∧
    exposeOps.getLast? = some MemOp.unlockMutex ∧
    MemOp.lockMutex ∉ zeroOps ∧
    MemOp.unlockMutex ∉ zeroOps := by
  refine ⟨rfl, rfl, by decide, by decide⟩

/-- Claim C7: `Expose` on a live cell neither mutates nor releases the
region: the receiver comes back unchanged and still alive, a second
`Expose` returns the same value, and the `Expose` body contains no
buffer-destroy operation. -/
theorem expose_preserves_cell {T : Type} (c : GobCodec T) (s : Secret T)
    (halive : s.buffer.alive = true) :
    (Expose c s).2 = s ∧
    (Expose c s).2.buffer.alive = true ∧
    (Expose c (Expose c s).2).1 = (Expose c s).1 ∧
    MemOp.destroyBuffer ∉ exposeOps := by
  have h2 : (Expose c s).2 = s := by
    unfold Expose
    cases c.decode s.buffer.Bytes <;> rfl
  exact ⟨h2, by rw [h2]; exact halive, by rw [h2], by decide⟩

/-- Witness for C7: evaluated on the live cell holding the encoding of
`5`. -/
theorem expose_preserves_cell_witness :
    (⟨⟨[5], true⟩⟩ : Secret Nat).buffer.alive = true ∧
    (Expose natCodec ⟨⟨[5], true⟩⟩).2 = ⟨⟨[5], true⟩⟩ :=
  ⟨rfl, (expose_preserves_cell natCodec ⟨⟨[5], true⟩⟩ rfl).1⟩

/-- Claim C8: calling `zero` twice is defined behaviour with one consistent
semantics — the second call is a no-op on the already-released region
(memguard's `Destroy` checks the alive flag and does nothing on a destroyed
buffer), leaving the cell's state exactly as after the first call. -/
theorem zero_twice_second_call_noop {T : Type} (s : Secret T) :
    Secret.zero (Secret.zero s) = Secret.zero s := by
  rcases s with ⟨⟨d, a⟩⟩
  cases a <;> simp [Secret.zero, LockedBuffer.Destroy]

/-- Claim C9: when decoding of the region's bytes fails inside `Expose`,
the error is discarded and `Expose` returns the zero value of `T` (the
untouched `var data T`), signalling nothing. -/
theorem expose_discards_decode_error {T : Type} (c : GobCodec T)
    (s : Secret T) (hdec : c.decode s.buffer.Bytes = none) :
    (Expose c s).1 = c.zeroVal := by
  unfold Expose
  rw [hdec]

/-- Witness for C9: on a destroyed cell the bytes read are empty, gob
decoding fails, and `Expose` returns the zero value `0`. -/
theorem expose_discards_decode_error_witness :
    natCodec.decode (⟨⟨[], false⟩⟩ : Secret Nat).buffer.Bytes = none ∧
    (Expose natCodec (⟨⟨[], false⟩⟩ : Secret Nat)).1 = natCodec.zeroVal :=
  ⟨rfl, expose_discards_decode_error natCodec ⟨⟨[], false⟩⟩ rfl⟩

/-- Claim C10: `String` is a constant function of the cell: any two cells,
of any payload types, in any lifecycle states, render identically as
`"[SECRET]"`, and the `String` body reads neither the buffer nor the mutex,
so it succeeds on a destroyed cell too. -/
theorem string_constant_never_reads_buffer {T U : Type}
    (s : Secret T) (t : Secret U) :
    Secret.String s = Secret.String t ∧
    Secret.String s = "[SECRET]" ∧
    MemOp.readBuffer ∉ stringOps ∧
    MemOp.lockMutex ∉ stringOps :=
  ⟨rfl, rfl, by decide, by decide⟩
